import Mathlib

/-!
Verification development for the Vmarketing backend server core
(response post-processing, model/strategy selection, quality analysis).

The JavaScript core is shallowly embedded: JS strings are `String`
(lists of characters; the few places where JS counts UTF-16 code units
instead of code points are noted and do not affect the inputs used here),
JS numbers are `ℚ` (all arithmetic in the core is exact on the values
involved), JS regular-expression `replace`/`split`/`test` calls are
translated pass by pass into executable character-list scanners that
mirror the leftmost-match / greedy / lazy semantics of the specific
patterns used by the source.
-/

/-! ## Basic JS string semantics -/

/-- Whitespace as matched by the `\s` class and `String.prototype.trim`
for the ASCII texts the core manipulates. -/
def jsWhitespace (c : Char) : Bool :=
  c == ' ' || c == '\t' || c == '\n' || c == '\r' ||
  c == Char.ofNat 11 || c == Char.ofNat 12

/-- JS `toLowerCase` (ASCII; other characters are untouched, as in JS for
the character set appearing in the source). -/
def toLowerStr (s : String) : String := String.mk (s.data.map Char.toLower)

/-- JS `Array.prototype.join(sep)`. -/
def joinWith (sep : String) : List String → String
  | [] => ""
  | [x] => x
  | x :: xs => x ++ sep ++ joinWith sep xs

/-- JS `String.prototype.split(sep)` with a one-character separator:
split at every occurrence, keeping empty fields. -/
def splitOnCharL (sep : Char) : List Char → List (List Char)
  | [] => [[]]
  | c :: cs =>
    let r := splitOnCharL sep cs
    if c == sep then [] :: r
    else
      match r with
      | p :: ps => (c :: p) :: ps
      | [] => [[c]]

/-- JS `s.split(sep)` for a one-character separator, on strings. -/
def jsSplitOnChar (sep : Char) (s : String) : List String :=
  (splitOnCharL sep s.data).map String.mk

/-- Does `l` start with `p`? -/
def startsWithL : List Char → List Char → Bool
  | _, [] => true
  | [], _ :: _ => false
  | c :: cs, p :: ps => c == p && startsWithL cs ps

/-- Does `l` end with `p`? -/
def endsWithL (l p : List Char) : Bool := startsWithL l.reverse p.reverse

/-- Substring occurrence test on character lists. -/
def containsL : List Char → List Char → Bool
  | [], pat => pat.isEmpty
  | c :: cs, pat => startsWithL (c :: cs) pat || containsL cs pat

/-- JS `String.prototype.includes`. -/
def strIncludes (s pat : String) : Bool := containsL s.data pat.data

/-- JS `String.prototype.endsWith` (used only through `endsWithL`). -/
def strEndsWith (s pat : String) : Bool := endsWithL s.data pat.data

/-- JS `String.prototype.trim` on a character list. -/
def jsTrimL (l : List Char) : List Char :=
  ((l.dropWhile jsWhitespace).reverse.dropWhile jsWhitespace).reverse

/-- JS `String.prototype.trim`. -/
def jsTrimStr (s : String) : String := String.mk (jsTrimL s.data)

/-- Sentence-boundary characters of the split regex `[.!?]+`. -/
def sentencePunct (c : Char) : Bool := c == '.' || c == '!' || c == '?'

/-- JS `text.split(/[.!?]+/)`: pieces between maximal runs of `.`, `!`,
`?`; empty pieces (at the ends or between nothing) are kept, exactly as
JS `split` keeps them. -/
def splitPunct : List Char → List (List Char)
  | [] => [[]]
  | c :: cs =>
    let r := splitPunct cs
    if sentencePunct c then
      match cs with
      | d :: _ => if sentencePunct d then r else [] :: r
      | [] => [] :: r
    else
      match r with
      | p :: ps => (c :: p) :: ps
      | [] => [[c]]

/-- First-seen-order deduplication, as JS `[...new Set(xs)]`. -/
def jsSetDedup (l : List String) : List String := go [] l where
  go (seen : List String) : List String → List String
    | [] => []
    | x :: xs => if seen.contains x then go seen xs else x :: go (x :: seen) xs

/-! ## The normalization passes of `cleanAIResponse`
(`utils/responseFormatter.js`), each a faithful rendering of one
`.replace` call, numbered and ordered as chained in the source. -/

/-- Helper for the lazy paired-delimiter regexes: starting just after an
opening delimiter, find the earliest closing delimiter (lazy `*?`);
`allowNL = false` renders `.`, which does not cross line terminators.
Returns the enclosed text and the remainder after the closing delimiter. -/
def findCloseSplit (delim : List Char) (allowNL : Bool) : List Char → Option (List Char × List Char)
  | [] => none
  | c :: cs =>
    if startsWithL (c :: cs) delim then some ([], (c :: cs).drop delim.length)
    else if !allowNL && (c == '\n' || c == '\r') then none
    else
      match findCloseSplit delim allowNL cs with
      | some (inner, rest) => some (c :: inner, rest)
      | none => none

/-- Generic engine for `replace(/D(...)D/g, keepInner ? inner : empty)`
with identical opening/closing delimiter `D`, scanning left to right as
the JS regex engine does (continue after each match; on a failed opening,
advance one character). Fuel is the remaining input length; every
recursive call consumes at least one character, so the fuel never runs
out. -/
def replaceDelimitedGo (delim : List Char) (allowNL keepInner : Bool) : Nat → List Char → List Char
  | 0, l => l
  | Nat.succ _, [] => []
  | Nat.succ n, c :: cs =>
    if startsWithL (c :: cs) delim then
      match findCloseSplit delim allowNL ((c :: cs).drop delim.length) with
      | some (inner, rest) =>
          (if keepInner then inner else []) ++ replaceDelimitedGo delim allowNL keepInner n rest
      | none => c :: replaceDelimitedGo delim allowNL keepInner n cs
    else c :: replaceDelimitedGo delim allowNL keepInner n cs

/-- Run the paired-delimiter engine with adequate fuel. -/
def replaceDelimited (delim : List Char) (allowNL keepInner : Bool) (l : List Char) : List Char :=
  replaceDelimitedGo delim allowNL keepInner l.length l

/-- Pass 1: `.replace(/```[\s\S]*?```/g, '')` — remove fenced code blocks. -/
def stripMarkdownCodeBlocks (l : List Char) : List Char :=
  replaceDelimited "```".data true false l

/-- Pass 2: `.replace(/\*\*(.*?)\*\*/g, '$1')` — unwrap bold emphasis. -/
def stripBoldMarkers (l : List Char) : List Char :=
  replaceDelimited "**".data false true l

/-- Pass 3: `.replace(/\*(.*?)\*/g, '$1')` — unwrap italic emphasis. -/
def stripItalicMarkers (l : List Char) : List Char :=
  replaceDelimited "*".data false true l

/-- Pass 4: `.replace(/`(.*?)`/g, '$1')` — unwrap inline code. -/
def stripInlineCode (l : List Char) : List Char :=
  replaceDelimited "`".data false true l

/-- Pass 5: `.replace(/\n{3,}/g, '\n\n')` — collapse 3+ newlines to 2. -/
def collapseExcessNewlines (l : List Char) : List Char :=
  ((l.splitBy (fun a b => a == b)).map (fun g =>
    match g with
    | c :: _ => if c == '\n' && g.length ≥ 3 then ['\n', '\n'] else g
    | [] => g)).flatten

/-- The boilerplate openers of pass 7, in the source's alternation order
(JS alternation takes the first alternative that matches). -/
def aiOpeners : List String :=
  ["Here\x27s", "Here is", "I\x27ll", "I will", "Let me", "Based on",
   "According to", "As an AI", "As a customer service representative",
   "As a helpful assistant"]

/-- Pass 7: `.replace(/^(Here's|…)[,\s]*/gi, '')` — strip one leading
boilerplate opener plus following commas/whitespace, case-insensitively
(`^` is not multiline, so at most one match at the very start). -/
def stripAIPrefixes (l : List Char) : List Char :=
  match aiOpeners.find? (fun p => startsWithL (l.map Char.toLower) (p.data.map Char.toLower)) with
  | some p => (l.drop p.data.length).dropWhile (fun c => c == ',' || jsWhitespace c)
  | none => l

/-- The boilerplate closers of pass 8 (no phrase is a suffix of another). -/
def aiClosers : List String :=
  ["I hope this helps", "Let me know if you need anything else",
   "Feel free to ask", "Is there anything else I can help you with"]

/-- Pass 8: `.replace(/(I hope this helps|…)[.!]*$/gi, '')` — a match must
be a closer phrase followed only by `.`/`!` up to the end, so: drop the
trailing `.`/`!` run, and if a closer ends there, remove both. -/
def stripAISuffixes (l : List Char) : List Char :=
  let punct := l.reverse.takeWhile (fun c => c == '.' || c == '!')
  let core := l.take (l.length - punct.length)
  match aiClosers.find? (fun p => endsWithL (core.map Char.toLower) (p.data.map Char.toLower)) with
  | some p => core.take (core.length - p.data.length)
  | none => l

/-- Passes 9–11: `.replace(/[!]{2,}/g, '!')` and the analogous `?`/`.`
passes — collapse runs of 2+ of the given character to one. -/
def collapsePunctRuns (ch : Char) (l : List Char) : List Char :=
  ((l.splitBy (fun a b => a == b)).map (fun g =>
    match g with
    | c :: _ => if c == ch && g.length ≥ 2 then [ch] else g
    | [] => g)).flatten

/-- Pass 12: `.replace(/([^\s])\1{2,}/g, '$1')` — collapse runs of 3+ of
the same non-whitespace character to one. -/
def collapseCharRuns (l : List Char) : List Char :=
  ((l.splitBy (fun a b => a == b)).map (fun g =>
    match g with
    | c :: _ => if !jsWhitespace c && g.length ≥ 3 then [c] else g
    | [] => g)).flatten

/-- Pass 13: `.replace(/\s{2,}/g, ' ')` — collapse runs of 2+ whitespace
characters (of any mix, newlines included) to a single space. -/
def collapseWhitespaceRuns (l : List Char) : List Char :=
  ((l.splitBy (fun a b => jsWhitespace a && jsWhitespace b)).map (fun g =>
    match g with
    | c :: _ => if jsWhitespace c && g.length ≥ 2 then [' '] else g
    | [] => g)).flatten

/-- A quote character of pass 14. -/
def isQuoteChar (c : Char) : Bool := c == '"' || c == '\x27'

/-- Pass 14: `.replace(/^["']|["']$/g, '')` — strip one leading and one
trailing quote character. -/
def stripSurroundingQuotes (l : List Char) : List Char :=
  let l1 := match l with
    | c :: cs => if isQuoteChar c then cs else l
    | [] => l
  match l1.getLast? with
  | some c => if isQuoteChar c then l1.dropLast else l1
  | none => l1

/-- A bullet marker of pass 15. -/
def bulletChar (c : Char) : Bool := c == '-' || c == '*' || c == '•'

/-- Pass 15 engine: `.replace(/^[\s]*[-*•]\s*/gm, '')`. `^` matches at
line starts; `[\s]*` may cross newlines; after a match the next position
is a line start exactly when the last consumed character was a newline.
Fuel is the input length (each match consumes at least the bullet). -/
def stripBulletMarkersGo : Nat → Bool → List Char → List Char
  | 0, _, l => l
  | Nat.succ _, _, [] => []
  | Nat.succ n, atStart, c :: cs =>
    if atStart then
      let ws := (c :: cs).takeWhile jsWhitespace
      match (c :: cs).drop ws.length with
      | b :: bs =>
        if bulletChar b then
          let tail := bs.takeWhile jsWhitespace
          stripBulletMarkersGo n (tail.getLast? == some '\n') (bs.drop tail.length)
        else c :: stripBulletMarkersGo n (c == '\n') cs
      | [] => c :: stripBulletMarkersGo n (c == '\n') cs
    else c :: stripBulletMarkersGo n (c == '\n') cs

/-- Pass 15: strip leading bullet markers at line starts. -/
def stripBulletMarkers (l : List Char) : List Char := stripBulletMarkersGo l.length true l

/-- Pass 16 engine: `.replace(/^[\s]*\d+[.)]\s*/gm, '')`; `\d+` is the
maximal digit run (no shorter run can be followed by `.`/`)`). -/
def stripNumberMarkersGo : Nat → Bool → List Char → List Char
  | 0, _, l => l
  | Nat.succ _, _, [] => []
  | Nat.succ n, atStart, c :: cs =>
    if atStart then
      let ws := (c :: cs).takeWhile jsWhitespace
      let rest := (c :: cs).drop ws.length
      let ds := rest.takeWhile Char.isDigit
      match ds, rest.drop ds.length with
      | _ :: _, p :: ps =>
        if p == '.' || p == ')' then
          let tail := ps.takeWhile jsWhitespace
          stripNumberMarkersGo n (tail.getLast? == some '\n') (ps.drop tail.length)
        else c :: stripNumberMarkersGo n (c == '\n') cs
      | _, _ => c :: stripNumberMarkersGo n (c == '\n') cs
    else c :: stripNumberMarkersGo n (c == '\n') cs

/-- Pass 16: strip leading numeric list markers at line starts. -/
def stripNumberMarkers (l : List Char) : List Char := stripNumberMarkersGo l.length true l

/-- Uppercase A–Z, the `[A-Z]` class of pass 17. -/
def isUpperAZ (c : Char) : Bool := 'A' ≤ c && c ≤ 'Z'

/-- Pass 17 engine: `.replace(/^[A-Z][A-Z\s]+:$/gm, '')`. Only the
maximal `[A-Z\s]` run can be followed by `:` (backtracking into the run
meets an `[A-Z\s]` character, never `:`); `$` is before a newline or at
the end, and the newline itself is not consumed. -/
def stripSectionHeadersGo : Nat → Bool → List Char → List Char
  | 0, _, l => l
  | Nat.succ _, _, [] => []
  | Nat.succ n, atStart, c :: cs =>
    if atStart && isUpperAZ c then
      let run := cs.takeWhile (fun d => isUpperAZ d || jsWhitespace d)
      match run, cs.drop run.length with
      | _ :: _, colon :: rest =>
        if colon == ':' && (rest.isEmpty || rest.head? == some '\n') then
          stripSectionHeadersGo n false rest
        else c :: stripSectionHeadersGo n (c == '\n') cs
      | _, _ => c :: stripSectionHeadersGo n (c == '\n') cs
    else c :: stripSectionHeadersGo n (c == '\n') cs

/-- Pass 17: remove all-caps "SECTION HEADER:" lines. -/
def stripSectionHeaders (l : List Char) : List Char := stripSectionHeadersGo l.length true l

/-- Pass 18: `.replace(/^\s*\n/, '')` — with greedy `\s*`, the matched
newline is the last newline inside the leading whitespace run; remove
everything up to and including it (no match if the leading whitespace
run has no newline). -/
def stripLeadingBlankLine (l : List Char) : List Char :=
  let w := l.takeWhile jsWhitespace
  let rw := w.reverse.dropWhile (fun c => c != '\n')
  if rw.isEmpty then l else l.drop rw.length

/-- Pass 19: `.replace(/\n\s*$/, '')` — the leftmost newline followed
only by whitespace is the first newline of the trailing whitespace run;
remove from it to the end. -/
def stripTrailingBlankLine (l : List Char) : List Char :=
  let run := (l.reverse.takeWhile jsWhitespace).reverse
  if run.any (fun c => c == '\n') then
    l.take (l.length - run.length) ++ run.takeWhile (fun c => c != '\n')
  else l

/-! ## Content structure analysis (`analyzeEnhancedContentStructure`) -/

/-- The derived record of `analyzeEnhancedContentStructure`. -/
structure ContentStructure where
  type : String
  keyPoints : List String
  positiveAspects : List String
  negativeAspects : List String
  suggestions : List String
  questions : List String
  statements : List String
  topics : List String
  totalSentences : Nat
  deriving DecidableEq

/-- `extractTopicKeywords(text)`: all-or-nothing topic keyword groups,
pushed in source order and deduplicated via `new Set`. -/
def extractTopicKeywords (text : String) : List String :=
  jsSetDedup
    ((if strIncludes text "food" || strIncludes text "restaurant" || strIncludes text "dining" || strIncludes text "meal" then
        ["restaurant", "food", "dining"] else []) ++
     (if strIncludes text "hotel" || strIncludes text "accommodation" || strIncludes text "room" || strIncludes text "stay" then
        ["hotel", "accommodation", "travel"] else []) ++
     (if strIncludes text "product" || strIncludes text "item" || strIncludes text "purchase" || strIncludes text "buy" then
        ["product", "shopping", "consumer"] else []) ++
     (if strIncludes text "service" || strIncludes text "support" || strIncludes text "help" || strIncludes text "assistance" then
        ["service", "support", "customer care"] else []) ++
     (if strIncludes text "app" || strIncludes text "software" || strIncludes text "technology" || strIncludes text "digital" then
        ["technology", "software", "digital"] else []))

/-- `capitalizeFirst(str)`: uppercase the first character, keep the rest
(identity on the empty string, as the source's falsy guard returns it). -/
def capitalizeFirst (s : String) : String :=
  match s.data with
  | [] => s
  | c :: cs => String.mk (c.toUpper :: cs)

/-- `analyzeEnhancedContentStructure(sentences)`: join the sentences with
spaces, lowercase, detect the content type by the source's if/else-if
chain (review, then analysis, then conversation, then customer_service,
else general), and extract the keyword-filtered sentence buckets. -/
def analyzeEnhancedContentStructure (sentences : List String) : ContentStructure :=
  let text := toLowerStr (joinWith " " sentences)
  let type :=
    if strIncludes text "rating" || strIncludes text "stars" || strIncludes text "recommend" || strIncludes text "experience" || strIncludes text "food" || strIncludes text "service" || strIncludes text "quality" then
      "review"
    else if strIncludes text "analysis" || strIncludes text "sentiment" || strIncludes text "key points" || strIncludes text "summary" || strIncludes text "findings" || strIncludes text "insights" then
      "analysis"
    else if strIncludes text "hello" || strIncludes text "hi" || strIncludes text "how are you" || strIncludes text "chat" || strIncludes text "conversation" then
      "conversation"
    else if strIncludes text "customer" || strIncludes text "service" || strIncludes text "apologize" || strIncludes text "resolve" || strIncludes text "issue" || strIncludes text "problem" then
      "customer_service"
    else "general"
  let keyPoints := sentences.filter (fun s =>
    strIncludes (toLowerStr s) "important" || strIncludes (toLowerStr s) "key" ||
    strIncludes (toLowerStr s) "main" || strIncludes (toLowerStr s) "primary" ||
    strIncludes (toLowerStr s) "essential" || strIncludes (toLowerStr s) "critical")
  let positiveAspects := sentences.filter (fun s =>
    strIncludes (toLowerStr s) "like" || strIncludes (toLowerStr s) "love" ||
    strIncludes (toLowerStr s) "good" || strIncludes (toLowerStr s) "great" ||
    strIncludes (toLowerStr s) "amazing" || strIncludes (toLowerStr s) "excellent" ||
    strIncludes (toLowerStr s) "outstanding" || strIncludes (toLowerStr s) "fantastic")
  let negativeAspects := sentences.filter (fun s =>
    strIncludes (toLowerStr s) "disappointing" || strIncludes (toLowerStr s) "bad" ||
    strIncludes (toLowerStr s) "poor" || strIncludes (toLowerStr s) "terrible" ||
    strIncludes (toLowerStr s) "awful" || strIncludes (toLowerStr s) "horrible" ||
    strIncludes (toLowerStr s) "unacceptable")
  let suggestions := sentences.filter (fun s =>
    strIncludes (toLowerStr s) "suggest" || strIncludes (toLowerStr s) "recommend" ||
    strIncludes (toLowerStr s) "could" || strIncludes (toLowerStr s) "should" ||
    strIncludes (toLowerStr s) "might" || strIncludes (toLowerStr s) "consider")
  let questions := sentences.filter (fun s => strIncludes s "?")
  let statements := sentences.filter (fun s => !strIncludes s "?")
  { type := type
    keyPoints := keyPoints
    positiveAspects := positiveAspects
    negativeAspects := negativeAspects
    suggestions := suggestions
    questions := questions
    statements := statements
    topics := extractTopicKeywords text
    totalSentences := sentences.length }

/-! ## The five renderers of `formatForEnhancedDepthAndRelevance` -/

/-- Numbered list lines `   1. Sentence.\n` as emitted by the renderers'
`forEach((s, index) => ...)` loops. -/
def numberedLines (items : List String) : String :=
  String.join (items.enum.map (fun p => "   " ++ toString (p.1 + 1) ++ ". " ++ capitalizeFirst p.2 ++ ".\n"))

/-- Bulleted list lines `   • Sentence.\n`. -/
def bulletLines (items : List String) : String :=
  String.join (items.map (fun a => "   • " ++ capitalizeFirst a ++ ".\n"))

/-- Plain indented lines `   Sentence.\n`. -/
def plainLines (items : List String) : String :=
  String.join (items.map (fun a => "   " ++ capitalizeFirst a ++ ".\n"))

/-- The conclusion-sentence predicate of `formatEnhancedReviewResponse`
(`sentences.find(s => ... 'recommend' || 'return' || 'worth' || 'overall'
|| 'conclusion' || 'final')`). -/
def reviewConclusionPred (s : String) : Bool :=
  strIncludes (toLowerStr s) "recommend" || strIncludes (toLowerStr s) "return" ||
  strIncludes (toLowerStr s) "worth" || strIncludes (toLowerStr s) "overall" ||
  strIncludes (toLowerStr s) "conclusion" || strIncludes (toLowerStr s) "final"

/-- The canned conclusion when positive aspects outnumber negative ones. -/
def reviewConclusionPositive : String :=
  "🎯 Overall, this was a positive experience that I would recommend to others."

/-- The canned conclusion when negative aspects outnumber positive ones. -/
def reviewConclusionNegative : String :=
  "🎯 While there were some issues, there\x27s potential for improvement with the right changes."

/-- The canned conclusion for a tie. -/
def reviewConclusionMixed : String :=
  "🎯 This was a mixed experience with both positive and negative aspects to consider."

/-- `formatEnhancedReviewResponse(sentences, structure)`. -/
def formatEnhancedReviewResponse (sentences : List String) (st : ContentStructure) : String :=
  let formatted := ""
  let opening := sentences.find? (fun s =>
    strIncludes (toLowerStr s) "experience" || strIncludes (toLowerStr s) "visit" ||
    strIncludes (toLowerStr s) "tried" || strIncludes (toLowerStr s) "went" ||
    strIncludes (toLowerStr s) "recently" || strIncludes (toLowerStr s) "last")
  let formatted := match opening with
    | some o => formatted ++ "📝 " ++ capitalizeFirst o ++ ".\n\n"
    | none => formatted
  let formatted := if st.positiveAspects.length > 0 then
      formatted ++ "✨ What I Really Enjoyed:\n" ++ bulletLines (st.positiveAspects.take 4) ++ "\n"
    else formatted
  let formatted := if st.negativeAspects.length > 0 then
      formatted ++ "⚠️ Areas for Improvement:\n" ++ bulletLines (st.negativeAspects.take 3) ++ "\n"
    else formatted
  let highlights := sentences.filter (fun s =>
    strIncludes (toLowerStr s) "highlight" || strIncludes (toLowerStr s) "memorable" ||
    strIncludes (toLowerStr s) "standout" || strIncludes (toLowerStr s) "impressive" ||
    strIncludes (toLowerStr s) "notable")
  let formatted := if highlights.length > 0 then
      formatted ++ "🌟 Memorable Highlights:\n" ++ numberedLines (highlights.take 3) ++ "\n"
    else formatted
  let experienceDetails := sentences.filter (fun s =>
    strIncludes (toLowerStr s) "atmosphere" || strIncludes (toLowerStr s) "ambiance" ||
    strIncludes (toLowerStr s) "environment" || strIncludes (toLowerStr s) "setting" ||
    strIncludes (toLowerStr s) "vibe" || strIncludes (toLowerStr s) "feel")
  let formatted := if experienceDetails.length > 0 then
      formatted ++ "🏠 Atmosphere & Environment:\n" ++ plainLines (experienceDetails.take 2) ++ "\n"
    else formatted
  let valueAspects := sentences.filter (fun s =>
    strIncludes (toLowerStr s) "price" || strIncludes (toLowerStr s) "cost" ||
    strIncludes (toLowerStr s) "value" || strIncludes (toLowerStr s) "worth" ||
    strIncludes (toLowerStr s) "expensive" || strIncludes (toLowerStr s) "affordable")
  let formatted := if valueAspects.length > 0 then
      formatted ++ "💰 Value & Pricing:\n" ++ plainLines (valueAspects.take 2) ++ "\n"
    else formatted
  let formatted := if st.suggestions.length > 0 then
      formatted ++ "💡 Recommendations:\n" ++ bulletLines (st.suggestions.take 3) ++ "\n"
    else formatted
  let conclusion := sentences.find? reviewConclusionPred
  let formatted := match conclusion with
    | some c => formatted ++ "🎯 " ++ capitalizeFirst c ++ "."
    | none =>
      let positiveCount := st.positiveAspects.length
      let negativeCount := st.negativeAspects.length
      if positiveCount > negativeCount then formatted ++ reviewConclusionPositive
      else if negativeCount > positiveCount then formatted ++ reviewConclusionNegative
      else formatted ++ reviewConclusionMixed
  jsTrimStr formatted

/-- `formatEnhancedAnalysisResponse(sentences, structure)`. -/
def formatEnhancedAnalysisResponse (sentences : List String) (st : ContentStructure) : String :=
  let formatted := ""
  let summary := sentences.find? (fun s =>
    strIncludes (toLowerStr s) "overall" || strIncludes (toLowerStr s) "summary" ||
    strIncludes (toLowerStr s) "in conclusion" || strIncludes (toLowerStr s) "main takeaway")
  let formatted := match summary with
    | some s => formatted ++ "📊 Executive Summary:\n" ++ capitalizeFirst s ++ ".\n\n"
    | none => formatted
  let findings := sentences.filter (fun s =>
    strIncludes (toLowerStr s) "found" || strIncludes (toLowerStr s) "discovered" ||
    strIncludes (toLowerStr s) "identified" || strIncludes (toLowerStr s) "detected" ||
    strIncludes (toLowerStr s) "observed" || strIncludes (toLowerStr s) "noticed")
  let formatted := if findings.length > 0 then
      formatted ++ "🔍 Detailed Findings:\n" ++ numberedLines (findings.take 5) ++ "\n"
    else formatted
  let sentimentSentences := sentences.filter (fun s =>
    strIncludes (toLowerStr s) "positive" || strIncludes (toLowerStr s) "negative" ||
    strIncludes (toLowerStr s) "neutral" || strIncludes (toLowerStr s) "sentiment" ||
    strIncludes (toLowerStr s) "emotion" || strIncludes (toLowerStr s) "tone")
  let formatted := if sentimentSentences.length > 0 then
      formatted ++ "😊 Sentiment Analysis:\n" ++ bulletLines (sentimentSentences.take 3) ++ "\n"
    else formatted
  let formatted := match st.topics with
    | t :: _ =>
      let topicSentences := sentences.filter (fun s =>
        st.topics.any (fun topic => strIncludes (toLowerStr s) topic))
      formatted ++ "📋 " ++ capitalizeFirst t ++ "-Specific Insights:\n" ++
        numberedLines (topicSentences.take 3) ++ "\n"
    | [] => formatted
  let formatted := if st.suggestions.length > 0 then
      formatted ++ "💡 Strategic Recommendations:\n" ++ bulletLines (st.suggestions.take 4) ++ "\n"
    else formatted
  let actionItems := sentences.filter (fun s =>
    strIncludes (toLowerStr s) "action" || strIncludes (toLowerStr s) "next" ||
    strIncludes (toLowerStr s) "step" || strIncludes (toLowerStr s) "plan" ||
    strIncludes (toLowerStr s) "implement" || strIncludes (toLowerStr s) "improve")
  let formatted := if actionItems.length > 0 then
      formatted ++ "🚀 Action Items & Next Steps:\n" ++ numberedLines (actionItems.take 4) ++ "\n"
    else formatted
  let impactSentences := sentences.filter (fun s =>
    strIncludes (toLowerStr s) "impact" || strIncludes (toLowerStr s) "effect" ||
    strIncludes (toLowerStr s) "result" || strIncludes (toLowerStr s) "outcome" ||
    strIncludes (toLowerStr s) "consequence")
  let formatted := if impactSentences.length > 0 then
      formatted ++ "📈 Impact Assessment:\n" ++ bulletLines (impactSentences.take 2)
    else formatted
  jsTrimStr formatted

/-- The context record computed by `analyzeConversationContext`. -/
structure ConversationContext where
  hasGreeting : Bool
  hasQuestion : Bool
  hasPersonalInsights : Bool
  isCasual : Bool
  isThoughtful : Bool
  topic : String
  sentiment : String
  deriving DecidableEq

/-- `extractConversationTopic(text)`. -/
def extractConversationTopic (text : String) : String :=
  if strIncludes text "ai" || strIncludes text "artificial intelligence" then "technology"
  else if strIncludes text "future" || strIncludes text "tomorrow" then "future"
  else if strIncludes text "story" || strIncludes text "joke" then "entertainment"
  else if strIncludes text "day" || strIncludes text "going" then "personal"
  else if strIncludes text "help" || strIncludes text "understand" then "assistance"
  else "general"

/-- `extractConversationSentiment(text)`. -/
def extractConversationSentiment (text : String) : String :=
  if strIncludes text "amazing" || strIncludes text "awesome" || strIncludes text "great" then "positive"
  else if strIncludes text "worried" || strIncludes text "concerned" || strIncludes text "problem" then "concerned"
  else if strIncludes text "curious" || strIncludes text "wonder" || strIncludes text "think" then "thoughtful"
  else "neutral"

/-- `analyzeConversationContext(sentences)`. -/
def analyzeConversationContext (sentences : List String) : ConversationContext :=
  let text := toLowerStr (joinWith " " sentences)
  { hasGreeting := strIncludes text "hello" || strIncludes text "hi" || strIncludes text "hey" || strIncludes text "thanks"
    hasQuestion := strIncludes text "?"
    hasPersonalInsights := strIncludes text "think" || strIncludes text "believe" || strIncludes text "feel"
    isCasual := strIncludes text "cool" || strIncludes text "awesome" || strIncludes text "great"
    isThoughtful := strIncludes text "interesting" || strIncludes text "fascinating" || strIncludes text "consider"
    topic := extractConversationTopic text
    sentiment := extractConversationSentiment text }

/-- `structureMainResponse(sentences, context)`: opening two sentences,
main content (2..5) behind a tone-dependent lead-in, closing (5..7). -/
def structureMainResponse (sentences : List String) (context : ConversationContext) : String :=
  let structured := ""
  let openingSentences := sentences.take 2
  let mainContent := (sentences.drop 2).take 3
  let closingSentences := (sentences.drop 5).take 2
  let structured := if openingSentences.length > 0 then
      structured ++ joinWith " " (openingSentences.map capitalizeFirst) ++ "\n\n"
    else structured
  let structured := if mainContent.length > 0 then
      (if context.hasQuestion then structured ++ "🤔 Here\x27s what I think:\n"
       else if context.isCasual then structured ++ "😊 "
       else structured ++ "💭 ") ++
      String.join (mainContent.map (fun s => capitalizeFirst s ++ " ")) ++ "\n\n"
    else structured
  let structured := if closingSentences.length > 0 then
      structured ++ joinWith " " (closingSentences.map capitalizeFirst)
    else structured
  structured

/-- `generateConversationalClosing(context, sentences)`: reuse an existing
follow-up question, else one of four canned closings. -/
def generateConversationalClosing (context : ConversationContext) (sentences : List String) : String :=
  let existingFollowUp := sentences.find? (fun s =>
    strIncludes (toLowerStr s) "what about you" || strIncludes (toLowerStr s) "how about" ||
    strIncludes (toLowerStr s) "what do you think" || strIncludes (toLowerStr s) "any thoughts" ||
    strIncludes (toLowerStr s) "your experience" || strIncludes (toLowerStr s) "your opinion")
  match existingFollowUp with
  | some f => "💬 " ++ capitalizeFirst f
  | none =>
    if context.hasQuestion then
      "💬 What are your thoughts on this? I\x27d love to hear your perspective!"
    else if context.isCasual then
      "💬 How about you? What\x27s your take on this?"
    else if context.isThoughtful then
      "💬 What do you think about this? I\x27m curious about your viewpoint."
    else
      "💬 What are your thoughts? I\x27d love to continue this conversation!"

/-- `formatEnhancedConversationResponse(sentences, structure)` (the
`structure` argument is unused by the source body, which works from the
conversation context instead). Sentence lengths are compared with the
code-point count; the source counts UTF-16 units, which agrees on every
sentence without surrogate pairs and on all inputs used below. -/
def formatEnhancedConversationResponse (sentences : List String) (_st : ContentStructure) : String :=
  let context := analyzeConversationContext sentences
  let formatted := ""
  let formatted := if context.hasGreeting then
      let greeting := sentences.find? (fun s =>
        strIncludes (toLowerStr s) "hello" || strIncludes (toLowerStr s) "hi" ||
        strIncludes (toLowerStr s) "hey" || strIncludes (toLowerStr s) "thanks" ||
        strIncludes (toLowerStr s) "thank you" || strIncludes (toLowerStr s) "appreciate")
      match greeting with
      | some g => formatted ++ capitalizeFirst g ++ ".\n\n"
      | none => formatted ++ "undefined.\n\n"
    else formatted
  let mainResponse := sentences.filter (fun s => s.length > 10)
  let formatted := if mainResponse.length > 0 then
      formatted ++ structureMainResponse mainResponse context ++ "\n\n"
    else formatted
  let formatted := if context.hasPersonalInsights then
      let insights := sentences.filter (fun s =>
        strIncludes (toLowerStr s) "think" || strIncludes (toLowerStr s) "believe" ||
        strIncludes (toLowerStr s) "feel" || strIncludes (toLowerStr s) "experience" ||
        strIncludes (toLowerStr s) "opinion" || strIncludes (toLowerStr s) "view")
      if insights.length > 0 then
        formatted ++ "💭 My Perspective:\n" ++ plainLines (insights.take 2) ++ "\n"
      else formatted
    else formatted
  let formatted := formatted ++ generateConversationalClosing context sentences
  jsTrimStr formatted

/-- `formatEnhancedCustomerServiceResponse(sentences, structure)`. -/
def formatEnhancedCustomerServiceResponse (sentences : List String) (_st : ContentStructure) : String :=
  let formatted := ""
  let acknowledgment := sentences.find? (fun s =>
    strIncludes (toLowerStr s) "understand" || strIncludes (toLowerStr s) "apologize" ||
    strIncludes (toLowerStr s) "sorry" || strIncludes (toLowerStr s) "concern" ||
    strIncludes (toLowerStr s) "issue" || strIncludes (toLowerStr s) "problem")
  let formatted := match acknowledgment with
    | some a => formatted ++ "🤝 " ++ capitalizeFirst a ++ ".\n\n"
    | none => formatted
  let problemAnalysis := sentences.filter (fun s =>
    strIncludes (toLowerStr s) "situation" || strIncludes (toLowerStr s) "circumstance" ||
    strIncludes (toLowerStr s) "experience" || strIncludes (toLowerStr s) "issue" ||
    strIncludes (toLowerStr s) "problem" || strIncludes (toLowerStr s) "concern")
  let formatted := if problemAnalysis.length > 0 then
      formatted ++ "📋 Understanding Your Situation:\n" ++ bulletLines (problemAnalysis.take 3) ++ "\n"
    else formatted
  let solutions := sentences.filter (fun s =>
    strIncludes (toLowerStr s) "solution" || strIncludes (toLowerStr s) "resolve" ||
    strIncludes (toLowerStr s) "fix" || strIncludes (toLowerStr s) "address" ||
    strIncludes (toLowerStr s) "correct" || strIncludes (toLowerStr s) "improve")
  let formatted := if solutions.length > 0 then
      formatted ++ "🔧 Immediate Solutions:\n" ++ numberedLines (solutions.take 4) ++ "\n"
    else formatted
  let improvements := sentences.filter (fun s =>
    strIncludes (toLowerStr s) "improve" || strIncludes (toLowerStr s) "enhance" ||
    strIncludes (toLowerStr s) "better" || strIncludes (toLowerStr s) "upgrade" ||
    strIncludes (toLowerStr s) "develop" || strIncludes (toLowerStr s) "advance")
  let formatted := if improvements.length > 0 then
      formatted ++ "🚀 Long-term Improvements:\n" ++ bulletLines (improvements.take 3) ++ "\n"
    else formatted
  let compensation := sentences.filter (fun s =>
    strIncludes (toLowerStr s) "compensate" || strIncludes (toLowerStr s) "refund" ||
    strIncludes (toLowerStr s) "discount" || strIncludes (toLowerStr s) "credit" ||
    strIncludes (toLowerStr s) "offer" || strIncludes (toLowerStr s) "gesture")
  let formatted := if compensation.length > 0 then
      formatted ++ "🎁 Goodwill Gestures:\n" ++ bulletLines (compensation.take 2) ++ "\n"
    else formatted
  let followUp := sentences.find? (fun s =>
    strIncludes (toLowerStr s) "contact" || strIncludes (toLowerStr s) "reach" ||
    strIncludes (toLowerStr s) "follow up" || strIncludes (toLowerStr s) "get in touch" ||
    strIncludes (toLowerStr s) "available")
  let formatted := match followUp with
    | some f => formatted ++ "📞 " ++ capitalizeFirst f
    | none => formatted ++ "📞 Please don\x27t hesitate to reach out if you need any further assistance."
  jsTrimStr formatted

/-- `formatEnhancedGeneralResponse(sentences, structure)`. -/
def formatEnhancedGeneralResponse (sentences : List String) (_st : ContentStructure) : String :=
  let formatted := ""
  let formatted := match sentences.head? with
    | some mainPoint => formatted ++ "📌 Main Point:\n" ++ capitalizeFirst mainPoint ++ ".\n\n"
    | none => formatted
  let explanations := (sentences.drop 1).take 5
  let formatted := if explanations.length > 0 then
      formatted ++ "📋 Detailed Explanation:\n" ++ numberedLines explanations ++ "\n"
    else formatted
  let insights := sentences.filter (fun s =>
    strIncludes (toLowerStr s) "important" || strIncludes (toLowerStr s) "key" ||
    strIncludes (toLowerStr s) "essential" || strIncludes (toLowerStr s) "critical" ||
    strIncludes (toLowerStr s) "significant" || strIncludes (toLowerStr s) "notable")
  let formatted := if insights.length > 0 then
      formatted ++ "💡 Key Insights:\n" ++ bulletLines (insights.take 3) ++ "\n"
    else formatted
  let applications := sentences.filter (fun s =>
    strIncludes (toLowerStr s) "example" || strIncludes (toLowerStr s) "instance" ||
    strIncludes (toLowerStr s) "case" || strIncludes (toLowerStr s) "scenario" ||
    strIncludes (toLowerStr s) "situation" || strIncludes (toLowerStr s) "application")
  let formatted := if applications.length > 0 then
      formatted ++ "🔍 Practical Examples:\n" ++ numberedLines (applications.take 2) ++ "\n"
    else formatted
  let conclusion := sentences.find? (fun s =>
    strIncludes (toLowerStr s) "therefore" || strIncludes (toLowerStr s) "thus" ||
    strIncludes (toLowerStr s) "in summary" || strIncludes (toLowerStr s) "overall" ||
    strIncludes (toLowerStr s) "conclusion" || strIncludes (toLowerStr s) "final")
  let formatted := match conclusion with
    | some c => formatted ++ "🎯 " ++ capitalizeFirst c
    | none => formatted ++ "🎯 In summary, this topic encompasses multiple important aspects that deserve careful consideration and thoughtful discussion."
  jsTrimStr formatted

/-- The sentence list computed at the top of
`formatForEnhancedDepthAndRelevance`: split on `[.!?]+`, trim, drop
empties. -/
def sentencesOf (text : String) : List String :=
  (((splitPunct text.data).map (fun p => jsTrimStr (String.mk p))).filter (fun s => s.length > 0))

/-- `formatForEnhancedDepthAndRelevance(text)`: identity on the empty
string (falsy guard), else analyze the sentence structure and dispatch
to the renderer for the detected content type. -/
def formatForEnhancedDepthAndRelevance (text : String) : String :=
  if text = "" then text
  else
    let sentences := sentencesOf text
    let st := analyzeEnhancedContentStructure sentences
    if st.type = "review" then formatEnhancedReviewResponse sentences st
    else if st.type = "analysis" then formatEnhancedAnalysisResponse sentences st
    else if st.type = "conversation" then formatEnhancedConversationResponse sentences st
    else if st.type = "customer_service" then formatEnhancedCustomerServiceResponse sentences st
    else formatEnhancedGeneralResponse sentences st

/-- The string pipeline of `cleanAIResponse` on a non-empty string: the
normalization passes chained in source order, then the enhanced
formatting. -/
def cleanAIResponseString (response : String) : String :=
  let cl := response.data
  let cl := stripMarkdownCodeBlocks cl
  let cl := stripBoldMarkers cl
  let cl := stripItalicMarkers cl
  let cl := stripInlineCode cl
  let cl := collapseExcessNewlines cl
  let cl := jsTrimL cl
  let cl := stripAIPrefixes cl
  let cl := stripAISuffixes cl
  let cl := collapsePunctRuns '!' cl
  let cl := collapsePunctRuns '?' cl
  let cl := collapsePunctRuns '.' cl
  let cl := collapseCharRuns cl
  let cl := collapseWhitespaceRuns cl
  let cl := stripSurroundingQuotes cl
  let cl := stripBulletMarkers cl
  let cl := stripNumberMarkers cl
  let cl := stripSectionHeaders cl
  let cl := stripLeadingBlankLine cl
  let cl := stripTrailingBlankLine cl
  formatForEnhancedDepthAndRelevance (String.mk cl)

/-- `cleanAIResponse` restricted to string inputs: the falsy guard
returns the empty string unchanged, every other string runs the
pipeline. -/
def cleanAIResponseStr (s : String) : String :=
  if s = "" then s else cleanAIResponseString s

/-- A JavaScript value, as far as `cleanAIResponse`'s guard
(`!response || typeof response !== 'string'`) observes one. -/
inductive JSValue where
  | vNull : JSValue
  | vUndefined : JSValue
  | vNum : ℚ → JSValue
  | vBool : Bool → JSValue
  | vStr : String → JSValue
  deriving DecidableEq

/-- JS truthiness of a `JSValue` (`NaN` does not arise in the core). -/
def jsTruthy : JSValue → Bool
  | JSValue.vNull => false
  | JSValue.vUndefined => false
  | JSValue.vNum n => n ≠ 0
  | JSValue.vBool b => b
  | JSValue.vStr s => s ≠ ""

/-- Is the value a JS string? -/
def isStringJS : JSValue → Bool
  | JSValue.vStr _ => true
  | _ => false

/-- `cleanAIResponse(response)`: non-strings and falsy values are
returned unchanged; other strings run the cleaning pipeline. -/
def cleanAIResponse (v : JSValue) : JSValue :=
  if !jsTruthy v || !isStringJS v then v
  else match v with
    | JSValue.vStr s => JSValue.vStr (cleanAIResponseString s)
    | w => w

/-! ## Model/strategy selection (`services/enhancedLLMService.js`) -/

/-- A static model descriptor from the `this.models` registry. -/
structure ModelConfig where
  name : String
  baseURL : String
  strengths : List String
  temperature : ℚ
  maxTokens : ℚ
  deriving DecidableEq

/-- `this.models.llama`. -/
def llamaModel : ModelConfig :=
  { name := "meta/llama-3.1-70b-instruct"
    baseURL := "https://integrate.api.nvidia.com/v1/chat/completions"
    strengths := ["conversation", "creative_writing", "analysis"]
    temperature := 0.6
    maxTokens := 3072 }

/-- `this.models.gpt4`. -/
def gpt4Model : ModelConfig :=
  { name := "gpt-4"
    baseURL := "https://api.openai.com/v1/chat/completions"
    strengths := ["reasoning", "structured_analysis", "technical"]
    temperature := 0.4
    maxTokens := 4000 }

/-- `this.models.claude`. -/
def claudeModel : ModelConfig :=
  { name := "claude-3-sonnet-20240229"
    baseURL := "https://api.anthropic.com/v1/messages"
    strengths := ["empathy", "customer_service", "detailed_analysis"]
    temperature := 0.3
    maxTokens := 4000 }

/-- `this.models.gemini`. -/
def geminiModel : ModelConfig :=
  { name := "gemini-pro"
    baseURL := "https://generativelanguage.googleapis.com/v1beta/models/gemini-pro:generateContent"
    strengths := ["multimodal", "creative", "diverse_responses"]
    temperature := 0.7
    maxTokens := 2048 }

/-- One entry of `this.responsePatterns` (the source field `structure`
is rendered `structureList`, since `structure` is a Lean keyword). -/
structure ResponsePattern where
  structureList : List String
  tone : List String
  length : String
  complexity : String
  deriving DecidableEq

/-- The `this.responsePatterns` registry: one mutable-in-JS record with
the four content-type keys. -/
structure ResponsePatterns where
  conversation : ResponsePattern
  analysis : ResponsePattern
  customer_service : ResponsePattern
  review : ResponsePattern
  deriving DecidableEq

/-- The registry as initialized in the constructor. -/
def initialResponsePatterns : ResponsePatterns :=
  { conversation :=
      { structureList := ["greeting", "main_content", "engagement", "closing"]
        tone := ["friendly", "casual", "engaging"]
        length := "medium", complexity := "moderate" }
    analysis :=
      { structureList := ["summary", "key_findings", "insights", "recommendations"]
        tone := ["professional", "objective", "detailed"]
        length := "long", complexity := "high" }
    customer_service :=
      { structureList := ["acknowledgment", "understanding", "solution", "follow_up"]
        tone := ["empathetic", "professional", "helpful"]
        length := "medium", complexity := "moderate" }
    review :=
      { structureList := ["experience", "highlights", "details", "recommendation"]
        tone := ["personal", "authentic", "informative"]
        length := "medium", complexity := "moderate" } }

/-- JS property lookup `this.responsePatterns[contentType]` (undefined
for any other key, e.g. `inquiry` or `general`). -/
def lookupResponsePattern (ps : ResponsePatterns) (contentType : String) : Option ResponsePattern :=
  if contentType = "conversation" then some ps.conversation
  else if contentType = "analysis" then some ps.analysis
  else if contentType = "customer_service" then some ps.customer_service
  else if contentType = "review" then some ps.review
  else none

/-- The effect, on the shared registry, of `strategy.tone.push('empathetic')`
when `strategy.tone` aliases `this.responsePatterns[contentType].tone`:
the tone array of the addressed entry grows; unknown keys leave the
registry unchanged (the pushed array is then the fresh `['professional']`). -/
def pushEmpatheticTone (ps : ResponsePatterns) (contentType : String) : ResponsePatterns :=
  if contentType = "conversation" then
    { ps with conversation := { ps.conversation with tone := ps.conversation.tone ++ ["empathetic"] } }
  else if contentType = "analysis" then
    { ps with analysis := { ps.analysis with tone := ps.analysis.tone ++ ["empathetic"] } }
  else if contentType = "customer_service" then
    { ps with customer_service := { ps.customer_service with tone := ps.customer_service.tone ++ ["empathetic"] } }
  else if contentType = "review" then
    { ps with review := { ps.review with tone := ps.review.tone ++ ["empathetic"] } }
  else ps

/-- The record built by `analyzeInputAndSelectModel`'s six sub-analyses. -/
structure InputAnalysis where
  contentType : String
  complexity : String
  sentiment : String
  urgency : String
  domain : String
  userIntent : String
  deriving DecidableEq

/-- `detectContentType(input)` of the selector (§4.5): conversation, then
analysis, then review, then customer_service, then inquiry, else general. -/
def detectContentType (input : String) : String :=
  let text := toLowerStr input
  if strIncludes text "hello" || strIncludes text "hi" || strIncludes text "how are you" then
    "conversation"
  else if strIncludes text "analyze" || strIncludes text "analysis" || strIncludes text "sentiment" then
    "analysis"
  else if strIncludes text "review" || strIncludes text "experience" || strIncludes text "visit" then
    "review"
  else if strIncludes text "problem" || strIncludes text "issue" || strIncludes text "complaint" then
    "customer_service"
  else if strIncludes text "question" || strIncludes text "help" || strIncludes text "explain" then
    "inquiry"
  else "general"

/-- `assessComplexity(input)`: thresholds on the word count
(`split(' ')`) and average words per sentence (`split(/[.!?]+/)`,
empty pieces included, exactly as JS `.length` counts them). -/
def assessComplexity (input : String) : String :=
  let wordCount := (jsSplitOnChar ' ' input).length
  let sentenceCount := (splitPunct input.data).length
  let avgWordsPerSentence : ℚ := (wordCount : ℚ) / (sentenceCount : ℚ)
  if wordCount > 100 ∧ avgWordsPerSentence > 15 then "high"
  else if wordCount > 50 ∧ avgWordsPerSentence > 10 then "medium"
  else "low"

/-- `detectSentiment(input)`: majority vote between the fixed word lists. -/
def detectSentiment (input : String) : String :=
  let text := toLowerStr input
  let positiveWords := ["good", "great", "amazing", "excellent", "love", "like", "happy", "satisfied"]
  let negativeWords := ["bad", "terrible", "awful", "hate", "disappointed", "angry", "frustrated"]
  let positiveCount := (positiveWords.filter (fun w => strIncludes text w)).length
  let negativeCount := (negativeWords.filter (fun w => strIncludes text w)).length
  if positiveCount > negativeCount then "positive"
  else if negativeCount > positiveCount then "negative"
  else "neutral"

/-- `assessUrgency(input)`. -/
def assessUrgency (input : String) : String :=
  let text := toLowerStr input
  let urgentWords := ["urgent", "asap", "immediately", "emergency", "critical", "now"]
  if urgentWords.any (fun w => strIncludes text w) then "high" else "normal"

/-- `detectDomain(input)`: first matching keyword group wins. -/
def detectDomain (input : String) : String :=
  let text := toLowerStr input
  if strIncludes text "restaurant" || strIncludes text "food" || strIncludes text "dining" then "restaurant"
  else if strIncludes text "hotel" || strIncludes text "accommodation" || strIncludes text "stay" then "hospitality"
  else if strIncludes text "product" || strIncludes text "purchase" || strIncludes text "buy" then "retail"
  else if strIncludes text "service" || strIncludes text "support" || strIncludes text "help" then "service"
  else if strIncludes text "technology" || strIncludes text "app" || strIncludes text "software" then "technology"
  else "general"

/-- `inferUserIntent(input, context)` (the context argument is unused by
the source body). -/
def inferUserIntent (input : String) (_context : List (String × String)) : String :=
  let text := toLowerStr input
  if strIncludes text "?" then "question"
  else if strIncludes text "help" || strIncludes text "support" then "support"
  else if strIncludes text "review" || strIncludes text "feedback" then "feedback"
  else if strIncludes text "complain" || strIncludes text "issue" then "complaint"
  else if strIncludes text "suggest" || strIncludes text "recommend" then "recommendation"
  else "general"

/-- `selectOptimalModel(analysis, context)`: deterministic first-match
policy over the four configs. -/
def selectOptimalModel (a : InputAnalysis) (_context : List (String × String)) : ModelConfig :=
  if a.contentType = "customer_service" ∨ a.userIntent = "complaint" then claudeModel
  else if a.contentType = "analysis" ∨ a.complexity = "high" then gpt4Model
  else if a.contentType = "review" ∨ a.domain = "general" then geminiModel
  else llamaModel

/-- The strategy object assembled by `generateResponseStrategy`. -/
structure ResponseStrategy where
  model : ModelConfig
  temperature : ℚ
  maxTokens : ℚ
  structureList : List String
  tone : List String
  length : String
  complexity : String
  enhancements : List String
  deriving DecidableEq

/-- `generateResponseStrategy(analysis, selectedModel)`. The returned
registry is the state of `this.responsePatterns` after the call:
`strategy.tone` is created as `this.responsePatterns[contentType]?.tone
|| ['professional']`, which for a known content type is the registry's
own array, so the `strategy.tone.push('empathetic')` performed for
negative sentiment writes through that alias into the registry. -/
def generateResponseStrategy (patterns : ResponsePatterns) (a : InputAnalysis)
    (selectedModel : ModelConfig) : ResponseStrategy × ResponsePatterns :=
  let pat? := lookupResponsePattern patterns a.contentType
  let strategy0 : ResponseStrategy :=
    { model := selectedModel
      temperature := selectedModel.temperature
      maxTokens := selectedModel.maxTokens
      structureList := (pat?.map ResponsePattern.structureList).getD ["main_content"]
      tone := (pat?.map ResponsePattern.tone).getD ["professional"]
      length := (pat?.map ResponsePattern.length).getD "medium"
      complexity := (pat?.map ResponsePattern.complexity).getD "moderate"
      enhancements := [] }
  let strategy1 := if a.urgency = "high" then
      { strategy0 with
        temperature := min (strategy0.temperature + 0.2) 1.0
        enhancements := strategy0.enhancements ++ ["urgent_response"] }
    else strategy0
  let strategy2 := if a.sentiment = "negative" then
      { strategy1 with
        enhancements := strategy1.enhancements ++ ["empathetic_tone"]
        tone := strategy1.tone ++ ["empathetic"] }
    else strategy1
  let patterns1 := if a.sentiment = "negative" then pushEmpatheticTone patterns a.contentType else patterns
  let strategy3 := if a.complexity = "high" then
      { strategy2 with
        maxTokens := min (strategy2.maxTokens * 1.5) 8000
        enhancements := strategy2.enhancements ++ ["detailed_explanation"] }
    else strategy2
  (strategy3, patterns1)

/-- `calculateConfidence(analysis)`: 0.5 plus fixed increments for each
non-default dimension, capped at 1.0. -/
def calculateConfidence (a : InputAnalysis) : ℚ :=
  let confidence : ℚ := 0.5
  let confidence := if a.contentType ≠ "general" then confidence + 0.2 else confidence
  let confidence := if a.sentiment ≠ "neutral" then confidence + 0.1 else confidence
  let confidence := if a.domain ≠ "general" then confidence + 0.1 else confidence
  let confidence := if a.userIntent ≠ "general" then confidence + 0.1 else confidence
  min confidence 1.0

/-- The record returned by `analyzeInputAndSelectModel`. -/
structure ModelSelection where
  analysis : InputAnalysis
  selectedModel : ModelConfig
  responseStrategy : ResponseStrategy
  confidence : ℚ
  deriving DecidableEq

/-- `analyzeInputAndSelectModel(input, context)`, with the registry state
threaded explicitly (in JS it lives on `this`). -/
def analyzeInputAndSelectModel (patterns : ResponsePatterns) (input : String)
    (context : List (String × String)) : ModelSelection × ResponsePatterns :=
  let analysis : InputAnalysis :=
    { contentType := detectContentType input
      complexity := assessComplexity input
      sentiment := detectSentiment input
      urgency := assessUrgency input
      domain := detectDomain input
      userIntent := inferUserIntent input context }
  let selectedModel := selectOptimalModel analysis context
  let sp := generateResponseStrategy patterns analysis selectedModel
  ({ analysis := analysis
     selectedModel := selectedModel
     responseStrategy := sp.1
     confidence := calculateConfidence analysis }, sp.2)

/-! ## Quality analyzer (`utils/responseQualityAnalyzer.js`) -/

/-- One entry of the analyzer's `this.responsePatterns` catalog (the
source field `structure` is rendered `structureList`; `optimalLength`
is flattened into its `min`/`max` components). -/
structure QAPattern where
  requiredElements : List String
  optimalLengthMin : ℚ
  optimalLengthMax : ℚ
  tone : List String
  structureList : List String
  deriving DecidableEq

/-- The analyzer's `conversation` pattern. -/
def qaConversationPattern : QAPattern :=
  { requiredElements := ["greeting", "main_content", "engagement"]
    optimalLengthMin := 50, optimalLengthMax := 200
    tone := ["friendly", "casual", "engaging"]
    structureList := ["opening", "body", "closing"] }

/-- The analyzer's `analysis` pattern. -/
def qaAnalysisPattern : QAPattern :=
  { requiredElements := ["summary", "key_points", "insights", "recommendations"]
    optimalLengthMin := 150, optimalLengthMax := 500
    tone := ["professional", "objective", "detailed"]
    structureList := ["executive_summary", "detailed_analysis", "conclusions"] }

/-- The analyzer's `customer_service` pattern. -/
def qaCustomerServicePattern : QAPattern :=
  { requiredElements := ["acknowledgment", "understanding", "solution", "follow_up"]
    optimalLengthMin := 100, optimalLengthMax := 300
    tone := ["empathetic", "professional", "helpful"]
    structureList := ["empathy", "problem_understanding", "solution", "next_steps"] }

/-- The analyzer's `review` pattern. -/
def qaReviewPattern : QAPattern :=
  { requiredElements := ["experience", "highlights", "details", "recommendation"]
    optimalLengthMin := 100, optimalLengthMax := 400
    tone := ["personal", "authentic", "informative"]
    structureList := ["context", "experience", "evaluation", "recommendation"] }

/-- JS property lookup `this.responsePatterns[contentType]` on the
analyzer's catalog. -/
def qaLookupPattern (contentType : String) : Option QAPattern :=
  if contentType = "conversation" then some qaConversationPattern
  else if contentType = "analysis" then some qaAnalysisPattern
  else if contentType = "customer_service" then some qaCustomerServicePattern
  else if contentType = "review" then some qaReviewPattern
  else none

/-- `this.responsePatterns[contentType] || this.responsePatterns.conversation`:
the catalog entry, defaulting to the conversation pattern for every
unknown tag. -/
def qaPatternFor (contentType : String) : QAPattern :=
  (qaLookupPattern contentType).getD qaConversationPattern

/-- `findSynonyms(word)`. -/
def findSynonyms (word : String) : List String :=
  if word = "greeting" then ["hello", "hi", "hey", "welcome"]
  else if word = "main_content" then ["content", "information", "details", "explanation"]
  else if word = "engagement" then ["interaction", "participation", "involvement"]
  else if word = "summary" then ["overview", "recap", "summary", "brief"]
  else if word = "key_points" then ["main points", "important points", "key findings"]
  else if word = "insights" then ["observations", "findings", "discoveries"]
  else if word = "recommendations" then ["suggestions", "advice", "recommendations"]
  else if word = "acknowledgment" then ["understand", "recognize", "acknowledge"]
  else if word = "understanding" then ["comprehend", "grasp", "understand"]
  else if word = "solution" then ["resolve", "fix", "address", "solve"]
  else if word = "follow_up" then ["next steps", "follow up", "continue"]
  else []

/-- `analyzeCompleteness(response, contentType)`: one equal share of the
score per required element whose words (split on `_`) or synonyms occur
in the lowercased response. -/
def analyzeCompleteness (response : String) (contentType : String) : ℚ :=
  if response = "" then 0
  else
    let pattern := qaPatternFor contentType
    let requiredElements := pattern.requiredElements
    let responseLower := toLowerStr response
    requiredElements.foldl (fun completenessScore element =>
      let elementWords := jsSplitOnChar '_' element
      let hasElement := elementWords.any (fun word =>
        strIncludes responseLower word ||
        (findSynonyms word).any (fun synonym => strIncludes responseLower synonym))
      if hasElement then completenessScore + 1 / (requiredElements.length : ℚ)
      else completenessScore) 0

/-- Split on `/\n\s*\n/` as used for paragraph counting. A match is the
span from the first to the last newline of a whitespace run holding two
or more newlines (one match per such run); whitespace of the run outside
that span carries no content, so assigning the whole run to the
delimiter leaves every piece equal to the JS piece up to surrounding
whitespace — and the trimmed-nonempty filter applied by every caller
makes the results agree. -/
def splitParaGroups : List (List Char) → List (List Char)
  | [] => [[]]
  | g :: gs =>
    let r := splitParaGroups gs
    if (match g with | c :: _ => jsWhitespace c | [] => false) && g.count '\n' ≥ 2 then
      [] :: r
    else
      match r with
      | p :: ps => (g ++ p) :: ps
      | [] => [g]

/-- `response.split(/\n\s*\n/)` (see `splitParaGroups`). -/
def jsSplitParagraphs (s : String) : List String :=
  (splitParaGroups (s.data.splitBy (fun a b => jsWhitespace a && jsWhitespace b))).map String.mk

/-- `/\n\s*[-*•]\s/.test(response)`: some newline is followed by optional
whitespace, a bullet and one whitespace character. -/
def hasBulletPoints : List Char → Bool
  | [] => false
  | c :: cs =>
    (c == '\n' &&
      (match cs.dropWhile jsWhitespace with
       | b :: s :: _ => bulletChar b && jsWhitespace s
       | _ => false)) || hasBulletPoints cs

/-- `/\n\s*\d+[.)]\s/.test(response)`. -/
def hasNumberedList : List Char → Bool
  | [] => false
  | c :: cs =>
    (c == '\n' &&
      (let rest := cs.dropWhile jsWhitespace
       let ds := rest.takeWhile Char.isDigit
       match ds, rest.drop ds.length with
       | _ :: _, p :: s :: _ => (p == '.' || p == ')') && jsWhitespace s
       | _, _ => false)) || hasNumberedList cs

/-- The structural indicator phrases of `analyzeStructure`. -/
def structuralIndicators : List String :=
  ["first", "second", "third", "finally", "in conclusion", "to summarize", "overall"]

/-- `analyzeStructure(response, contentType)` (the looked-up pattern's
`structure` field is bound but unused by the source body). -/
def analyzeStructure (response : String) (contentType : String) : ℚ :=
  if response = "" then 0
  else
    let _pattern := qaPatternFor contentType
    let paragraphs := (jsSplitParagraphs response).filter (fun p => (jsTrimStr p).length > 0)
    let structureScore : ℚ := 0.5
    let structureScore := if paragraphs.length ≥ 2 then structureScore + 0.2 else structureScore
    let indicatorCount := (structuralIndicators.filter (fun indicator =>
      strIncludes (toLowerStr response) indicator)).length
    let structureScore :=
      if indicatorCount ≥ 2 then structureScore + 0.2
      else if indicatorCount ≥ 1 then structureScore + 0.1
      else structureScore
    let structureScore :=
      if hasBulletPoints response.data || hasNumberedList response.data then structureScore + 0.1
      else structureScore
    min (max structureScore 0) 1

/-- The `toneIndicators` table of `analyzeTone`. -/
def toneIndicatorsFor (tone : String) : List String :=
  if tone = "professional" then ["professional", "expert", "analysis", "recommendation", "assessment"]
  else if tone = "casual" then ["cool", "awesome", "great", "nice", "fun"]
  else if tone = "friendly" then ["hello", "hi", "thanks", "appreciate", "welcome"]
  else if tone = "empathetic" then ["understand", "sorry", "apologize", "care", "concern"]
  else if tone = "formal" then ["therefore", "consequently", "furthermore", "moreover", "thus"]
  else []

/-- `analyzeTone(response, contentType)`: 0.5 plus 0.2 per expected tone
whose indicators occur, clamped to `[0, 1]`. -/
def analyzeTone (response : String) (contentType : String) : ℚ :=
  if response = "" then 0
  else
    let pattern := qaPatternFor contentType
    let toneScore := pattern.tone.foldl (fun toneScore expectedTone =>
      if (toneIndicatorsFor expectedTone).any (fun indicator =>
          strIncludes (toLowerStr response) indicator) then
        toneScore + 0.2
      else toneScore) (0.5 : ℚ)
    min (max toneScore 0) 1

/-- `analyzeLength(response, contentType)`: tiered score from the word
count (`split(' ')`, empty fields counted as JS does) against the
pattern's optimal range. -/
def analyzeLength (response : String) (contentType : String) : ℚ :=
  if response = "" then 0
  else
    let pattern := qaPatternFor contentType
    let wordCount : ℚ := ((jsSplitOnChar ' ' response).length : ℚ)
    let lmin := pattern.optimalLengthMin
    let lmax := pattern.optimalLengthMax
    if wordCount ≥ lmin ∧ wordCount ≤ lmax then 1
    else if wordCount ≥ lmin * 0.8 ∧ wordCount ≤ lmax * 1.2 then 0.8
    else if wordCount ≥ lmin * 0.6 ∧ wordCount ≤ lmax * 1.4 then 0.6
    else 0.3

/-- The eight metric scores of a quality analysis (the source field
`structure` is rendered `structureScore`). -/
structure QualityMetrics where
  coherence : ℚ
  relevance : ℚ
  completeness : ℚ
  clarity : ℚ
  engagement : ℚ
  structureScore : ℚ
  tone : ℚ
  length : ℚ
  deriving DecidableEq

/-- JS property access `metrics[metric]` for the eight metric names. -/
def metricsGet (m : QualityMetrics) (metric : String) : ℚ :=
  if metric = "coherence" then m.coherence
  else if metric = "relevance" then m.relevance
  else if metric = "completeness" then m.completeness
  else if metric = "clarity" then m.clarity
  else if metric = "engagement" then m.engagement
  else if metric = "structure" then m.structureScore
  else if metric = "tone" then m.tone
  else if metric = "length" then m.length
  else 0

/-- The `weights` object of `calculateOverallScore`, in declaration
order (= `Object.keys` iteration order). -/
def overallWeights : List (String × ℚ) :=
  [("coherence", 0.15), ("relevance", 0.15), ("completeness", 0.15), ("clarity", 0.15),
   ("engagement", 0.10), ("structure", 0.10), ("tone", 0.10), ("length", 0.10)]

/-- `calculateOverallScore(metrics)`: accumulate `metrics[k] * weights[k]`
and the weight total over the keys, then divide (guarding zero weight). -/
def calculateOverallScore (m : QualityMetrics) : ℚ :=
  let totalScore := overallWeights.foldl (fun acc p => acc + metricsGet m p.1 * p.2) 0
  let totalWeight := overallWeights.foldl (fun acc p => acc + p.2) (0 : ℚ)
  if totalWeight > 0 then totalScore / totalWeight else 0

/-! ## Upstream-response post-processing (`services/llamaService.js`).
`JSON.parse` / `JSON.stringify` are platform builtins; they enter the
embedding as parameters (`parseJson`, `stringifyJson`), and a parse
failure (the JS `catch`) is `none`. -/

/-- The shape of the voice-analysis record (`analysisData`). -/
structure VoiceAnalysisData where
  sentiment : String
  confidence : ℚ
  keyPoints : List String
  topics : List String
  suggestions : List String
  tone : String
  actionItems : List String
  summary : String
  wordCount : Nat
  speakingPace : String
  deriving DecidableEq

/-- A parsed JSON object for the voice analysis: any subset of the
fields may be present. -/
structure PartialVoiceAnalysisData where
  sentiment : Option String := none
  confidence : Option ℚ := none
  keyPoints : Option (List String) := none
  topics : Option (List String) := none
  suggestions : Option (List String) := none
  tone : Option String := none
  actionItems : Option (List String) := none
  summary : Option String := none
  wordCount : Option Nat := none
  speakingPace : Option String := none
  deriving DecidableEq

/-- View a complete record as a parsed object with every field present. -/
def partialOfVoice (d : VoiceAnalysisData) : PartialVoiceAnalysisData :=
  { sentiment := some d.sentiment, confidence := some d.confidence
    keyPoints := some d.keyPoints, topics := some d.topics
    suggestions := some d.suggestions, tone := some d.tone
    actionItems := some d.actionItems, summary := some d.summary
    wordCount := some d.wordCount, speakingPace := some d.speakingPace }

/-- The JS object spread `{ ...defaultAnalysis, ...analysisData }`:
fields present in `analysisData` override the defaults. -/
def mergeVoiceAnalysis (dflt : VoiceAnalysisData) (d : PartialVoiceAnalysisData) : VoiceAnalysisData :=
  { sentiment := d.sentiment.getD dflt.sentiment
    confidence := d.confidence.getD dflt.confidence
    keyPoints := d.keyPoints.getD dflt.keyPoints
    topics := d.topics.getD dflt.topics
    suggestions := d.suggestions.getD dflt.suggestions
    tone := d.tone.getD dflt.tone
    actionItems := d.actionItems.getD dflt.actionItems
    summary := d.summary.getD dflt.summary
    wordCount := d.wordCount.getD dflt.wordCount
    speakingPace := d.speakingPace.getD dflt.speakingPace }

/-- The `catch (parseError)` fallback record of `analyzeVoiceInput`. -/
def fallbackVoiceAnalysis (transcript : String) : VoiceAnalysisData :=
  { sentiment := "neutral"
    confidence := 0.5
    keyPoints := ["Content analyzed"]
    topics := ["General"]
    suggestions := ["Consider providing more context"]
    tone := "neutral"
    actionItems := ["Review transcript"]
    summary := "Voice content was processed"
    wordCount := (jsSplitOnChar ' ' transcript).length
    speakingPace := "normal" }

/-- The `defaultAnalysis` record of `analyzeVoiceInput`. -/
def defaultVoiceAnalysis (transcript : String) : VoiceAnalysisData :=
  { sentiment := "neutral"
    confidence := 0.5
    keyPoints := []
    topics := []
    suggestions := []
    tone := "neutral"
    actionItems := []
    summary := "Analysis completed"
    wordCount := (jsSplitOnChar ' ' transcript).length
    speakingPace := "normal" }

/-- The success payload returned by `analyzeVoiceInput`. -/
structure VoiceAnalysisResult where
  success : Bool
  analysis : String
  provider : String
  model : String
  deriving DecidableEq

/-- The processing `analyzeVoiceInput` applies once the upstream
completion arrives: take the completion content (`|| '{}'`), try to
parse it, fall back to the fixed record on failure, merge over the
defaults, clean the stringified result, and return success. -/
def analyzeVoiceInputPost (parseJson : String → Option PartialVoiceAnalysisData)
    (stringifyJson : VoiceAnalysisData → String)
    (completionContent : Option String) (transcript : String) : VoiceAnalysisResult :=
  let response := completionContent.getD "{}"
  let analysisData : PartialVoiceAnalysisData :=
    match parseJson response with
    | some d => d
    | none => partialOfVoice (fallbackVoiceAnalysis transcript)
  let finalAnalysis := mergeVoiceAnalysis (defaultVoiceAnalysis transcript) analysisData
  let cleanedResponse := cleanAIResponseStr (stringifyJson finalAnalysis)
  { success := true
    analysis := cleanedResponse
    provider := "Meta Llama 3.1 70B Instruct"
    model := "meta/llama-3.1-70b-instruct" }

/-- One suggestion entry of the location-suggestions payload. -/
structure LocationSuggestion where
  name : String
  locType : String
  description : String
  confidence : ℚ
  keywords : List String
  address : String
  deriving DecidableEq

/-- The `analysis` sub-object of the location-suggestions payload. -/
structure LocationAnalysis where
  locationMentioned : Bool
  locationType : String
  specificPlace : Option String
  cityOrArea : Option String
  confidence : ℚ
  deriving DecidableEq

/-- The whole location-suggestions payload. -/
structure LocationPayload where
  suggestions : List LocationSuggestion
  analysis : LocationAnalysis
  deriving DecidableEq

/-- The `catch (parseError)` fallback payload of
`generateLocationSuggestions`. -/
def fallbackLocationPayload : LocationPayload :=
  { suggestions := []
    analysis :=
      { locationMentioned := false
        locationType := "unknown"
        specificPlace := none
        cityOrArea := none
        confidence := 0.0 } }

/-- The record returned by `generateLocationSuggestions` (`analysis`
is `none` when the JS value is the empty object `{}`). -/
structure LocationSuggestionsResult where
  success : Bool
  suggestions : List LocationSuggestion
  analysis : Option LocationAnalysis
  provider : String
  model : String
  deriving DecidableEq

/-- The processing `generateLocationSuggestions` applies once the
completion arrives. Note the source cleans the *stringified* payload and
then reads `cleanedResponse.suggestions` / `cleanedResponse.analysis`
off that string, which are `undefined`, so the `|| []` / `|| {}`
defaults always win — the embedding keeps the (unused) cleaned string
and those constant fields. -/
def generateLocationSuggestionsPost (parseJson : String → Option LocationPayload)
    (stringifyJson : LocationPayload → String)
    (completionContent : Option String) : LocationSuggestionsResult :=
  let response := completionContent.getD "No response generated"
  let suggestions : LocationPayload :=
    match parseJson response with
    | some p => p
    | none => fallbackLocationPayload
  let _cleanedResponse := cleanAIResponseStr (stringifyJson suggestions)
  { success := true
    suggestions := []
    analysis := none
    provider := "Meta Llama 3.1 70B Instruct"
    model := "meta/llama-3.1-70b-instruct" }

/-- A string that trimming cannot reach into: its first and last
characters (when present) are not whitespace. -/
def trimInert (c : List Char) : Bool :=
  c.head?.all (fun d => !jsWhitespace d) && c.getLast?.all (fun d => !jsWhitespace d)

/-- The input pinned by the spec for the divergence of the two
content-type classifiers. -/
def pinnedDivergenceInput : String :=
  "Hi there, how\x27s it going? I wanted to get your analysis on this."

/-! ## Helper lemmas: trimming preserves a whitespace-free suffix -/

theorem startsWithL_append_self (p r : List Char) : startsWithL (p ++ r) p = true := by
  induction p with
  | nil => simp [startsWithL]
  | cons c cs ih => simp [startsWithL, ih]

theorem endsWithL_append_self (x c : List Char) : endsWithL (x ++ c) c = true := by
  unfold endsWithL
  rw [List.reverse_append]
  exact startsWithL_append_self c.reverse x.reverse

theorem dropWhile_eq_self_of_head (p : Char → Bool) (l : List Char)
    (h : ∀ d, l.head? = some d → p d = false) : List.dropWhile p l = l := by
  cases l with
  | nil => rfl
  | cons c cs => simp [List.dropWhile, h c rfl]

theorem dropWhile_append_rest (p : Char → Bool) (x c : List Char)
    (hc : List.dropWhile p c = c) : ∃ x', List.dropWhile p (x ++ c) = x' ++ c := by
  induction x with
  | nil => exact ⟨[], by simpa using hc⟩
  | cons a xs ih =>
    by_cases hp : p a = true
    · simpa [List.dropWhile, hp] using ih
    · exact ⟨a :: xs, by simp [List.dropWhile, hp]⟩

theorem jsTrimL_append_endsWith (x c : List Char) (h : trimInert c = true) :
    endsWithL (jsTrimL (x ++ c)) c = true := by
  cases c with
  | nil => simp [endsWithL, startsWithL]
  | cons d cs =>
    rw [trimInert, Bool.and_eq_true] at h
    have hhead : jsWhitespace d = false := by
      have := h.1
      simp [List.head?] at this
      simpa using this
    have hlast : ∀ e, (d :: cs).getLast? = some e → jsWhitespace e = false := by
      intro e he
      have := h.2
      rw [he] at this
      simpa using this
    have hc : List.dropWhile jsWhitespace (d :: cs) = d :: cs :=
      dropWhile_eq_self_of_head _ _ (by intro e he; simp at he; subst he; exact hhead)
    obtain ⟨x', hx'⟩ := dropWhile_append_rest jsWhitespace x (d :: cs) hc
    unfold jsTrimL
    rw [hx', List.reverse_append]
    have hne : (d :: cs).reverse ≠ [] := by simp
    obtain ⟨e, l', hrev⟩ := List.exists_cons_of_ne_nil hne
    have hgl : (d :: cs).getLast? = some e := by
      rw [← List.head?_reverse, hrev]; rfl
    have hcr : List.dropWhile jsWhitespace ((d :: cs).reverse ++ x'.reverse) =
        (d :: cs).reverse ++ x'.reverse := by
      apply dropWhile_eq_self_of_head
      intro f hf
      rw [hrev] at hf
      simp at hf
      subst hf
      exact hlast e hgl
    rw [hcr, ← List.reverse_append, List.reverse_reverse]
    exact endsWithL_append_self x' (d :: cs)

theorem strEndsWith_jsTrim_append (F c : String) (h : trimInert c.data = true) :
    strEndsWith (jsTrimStr (F ++ c)) c = true := by
  unfold strEndsWith jsTrimStr
  have hd : (F ++ c).data = F.data ++ c.data := by
    cases F; cases c; rfl
  rw [hd]
  exact jsTrimL_append_endsWith F.data c.data h

/-! ## Claim theorems -/

set_option maxRecDepth 100000 in
/-- C1 (counterexample): the cleaning pipeline is not idempotent on
strings. On the input "hello" the first pass emits a greeting plus a
canned conversational closing; cleaning that output again collapses its
blank lines to spaces and appends a second canned closing, so the two
results differ. -/
theorem cleanAIResponse_not_idempotent_on_hello :
    cleanAIResponseStr (cleanAIResponseStr "hello") ≠ cleanAIResponseStr "hello" :=
  ne_of_beq_false rfl

/-- C1 (amended): the cleaning operation is idempotent on every
non-string or falsy input, where it is the identity; on arbitrary
strings idempotence fails (see the counterexample). -/
theorem cleanAIResponse_idempotent_on_nonstring_or_falsy (v : JSValue)
    (h : isStringJS v = false ∨ jsTruthy v = false) :
    cleanAIResponse (cleanAIResponse v) = cleanAIResponse v := by
  cases v with
  | vStr s =>
    rcases h with h | h
    · simp [isStringJS] at h
    · have hs : s = "" := by
        by_contra hne
        simp [jsTruthy, hne] at h
      subst hs
      rfl
  | vNull => rfl
  | vUndefined => rfl
  | vNum n => simp [cleanAIResponse, jsTruthy, isStringJS]
  | vBool b => simp [cleanAIResponse, jsTruthy, isStringJS]

/-- Witness for the amended C1 at the concrete input `null`. -/
theorem cleanAIResponse_idempotent_witness :
    cleanAIResponse (cleanAIResponse JSValue.vNull) = cleanAIResponse JSValue.vNull :=
  cleanAIResponse_idempotent_on_nonstring_or_falsy JSValue.vNull (Or.inl rfl)

set_option maxRecDepth 100000 in
/-- C2: the selection pipeline is not stateless. With the input
"hello, this is terrible" (conversation content, negative sentiment) the
strategy builder pushes "empathetic" through the aliased tone array into
the static registry, so the registry changes and a second identical call
returns a different strategy. -/
theorem responsePatterns_mutated_across_calls :
    (analyzeInputAndSelectModel initialResponsePatterns "hello, this is terrible" []).2.conversation.tone ≠
      initialResponsePatterns.conversation.tone ∧
    (analyzeInputAndSelectModel initialResponsePatterns "hello, this is terrible" []).1.responseStrategy.tone =
      ["friendly", "casual", "engaging", "empathetic"] ∧
    (analyzeInputAndSelectModel
        (analyzeInputAndSelectModel initialResponsePatterns "hello, this is terrible" []).2
        "hello, this is terrible" []).1.responseStrategy.tone =
      ["friendly", "casual", "engaging", "empathetic", "empathetic"] ∧
    (analyzeInputAndSelectModel initialResponsePatterns "hello, this is terrible" []).1 ≠
      (analyzeInputAndSelectModel
        (analyzeInputAndSelectModel initialResponsePatterns "hello, this is terrible" []).2
        "hello, this is terrible" []).1 := by
  have t1 : (analyzeInputAndSelectModel initialResponsePatterns "hello, this is terrible" []).1.responseStrategy.tone =
      ["friendly", "casual", "engaging", "empathetic"] := rfl
  have t2 : (analyzeInputAndSelectModel
      (analyzeInputAndSelectModel initialResponsePatterns "hello, this is terrible" []).2
      "hello, this is terrible" []).1.responseStrategy.tone =
      ["friendly", "casual", "engaging", "empathetic", "empathetic"] := rfl
  refine ⟨ne_of_beq_false rfl, t1, t2, ?_⟩
  intro h
  rw [congrArg (fun r => r.responseStrategy.tone) h, t2] at t1
  exact absurd t1 (by simp)

/-- C3: the content classifier tests review keywords first, so any
sentence list whose joined lowercased text contains a review keyword —
whether or not an analysis keyword is also present — is classified
`review`. -/
theorem analyzeEnhancedContentStructure_review_first (sentences : List String)
    (hrev : (strIncludes (toLowerStr (joinWith " " sentences)) "rating" ||
             strIncludes (toLowerStr (joinWith " " sentences)) "stars" ||
             strIncludes (toLowerStr (joinWith " " sentences)) "recommend" ||
             strIncludes (toLowerStr (joinWith " " sentences)) "experience" ||
             strIncludes (toLowerStr (joinWith " " sentences)) "food" ||
             strIncludes (toLowerStr (joinWith " " sentences)) "service" ||
             strIncludes (toLowerStr (joinWith " " sentences)) "quality") = true)
    (_hana : (strIncludes (toLowerStr (joinWith " " sentences)) "analysis" ||
             strIncludes (toLowerStr (joinWith " " sentences)) "sentiment" ||
             strIncludes (toLowerStr (joinWith " " sentences)) "key points" ||
             strIncludes (toLowerStr (joinWith " " sentences)) "summary" ||
             strIncludes (toLowerStr (joinWith " " sentences)) "findings" ||
             strIncludes (toLowerStr (joinWith " " sentences)) "insights") = true) :
    (analyzeEnhancedContentStructure sentences).type = "review" := by
  simp [analyzeEnhancedContentStructure, hrev]

set_option maxRecDepth 100000 in
/-- Witness for C3 at the sentence set of the spec example. -/
theorem analyzeEnhancedContentStructure_review_first_witness :
    (analyzeEnhancedContentStructure ["5 stars, great food", "sentiment analysis"]).type = "review" :=
  analyzeEnhancedContentStructure_review_first _ (by rfl) (by rfl)

set_option maxRecDepth 100000 in
/-- C4: the selector and the formatter classifier disagree on the pinned
input — the selector sees the conversation keyword "hi" first, while the
formatter classifier reaches its analysis branch. -/
theorem selector_formatter_divergence :
    detectContentType pinnedDivergenceInput = "conversation" ∧
    (analyzeEnhancedContentStructure (sentencesOf pinnedDivergenceInput)).type = "analysis" ∧
    detectContentType pinnedDivergenceInput ≠
      (analyzeEnhancedContentStructure (sentencesOf pinnedDivergenceInput)).type :=
  ⟨rfl, rfl, ne_of_beq_false rfl⟩

/-- C5: for metric values in the unit interval, the overall score is
exactly the fixed weighted sum (weights 0.15/0.15/0.15/0.15 and
0.10/0.10/0.10/0.10, summing to one), lies in the unit interval, and in
particular is within 1e-9 of that sum. -/
theorem calculateOverallScore_weighted (m : QualityMetrics)
    (h1 : 0 ≤ m.coherence ∧ m.coherence ≤ 1) (h2 : 0 ≤ m.relevance ∧ m.relevance ≤ 1)
    (h3 : 0 ≤ m.completeness ∧ m.completeness ≤ 1) (h4 : 0 ≤ m.clarity ∧ m.clarity ≤ 1)
    (h5 : 0 ≤ m.engagement ∧ m.engagement ≤ 1) (h6 : 0 ≤ m.structureScore ∧ m.structureScore ≤ 1)
    (h7 : 0 ≤ m.tone ∧ m.tone ≤ 1) (h8 : 0 ≤ m.length ∧ m.length ≤ 1) :
    calculateOverallScore m =
      0.15 * m.coherence + 0.15 * m.relevance + 0.15 * m.completeness + 0.15 * m.clarity +
      0.10 * m.engagement + 0.10 * m.structureScore + 0.10 * m.tone + 0.10 * m.length ∧
    0 ≤ calculateOverallScore m ∧ calculateOverallScore m ≤ 1 ∧
    |calculateOverallScore m -
      (0.15 * m.coherence + 0.15 * m.relevance + 0.15 * m.completeness + 0.15 * m.clarity +
       0.10 * m.engagement + 0.10 * m.structureScore + 0.10 * m.tone + 0.10 * m.length)| ≤
      1 / 1000000000 := by
  have heq : calculateOverallScore m =
      0.15 * m.coherence + 0.15 * m.relevance + 0.15 * m.completeness + 0.15 * m.clarity +
      0.10 * m.engagement + 0.10 * m.structureScore + 0.10 * m.tone + 0.10 * m.length := by
    simp [calculateOverallScore, overallWeights, metricsGet, List.foldl]
    norm_num
    ring
  refine ⟨heq, ?_, ?_, ?_⟩
  · rw [heq]
    have := h1.1; have := h2.1; have := h3.1; have := h4.1
    have := h5.1; have := h6.1; have := h7.1; have := h8.1
    nlinarith
  · rw [heq]
    have := h1.2; have := h2.2; have := h3.2; have := h4.2
    have := h5.2; have := h6.2; have := h7.2; have := h8.2
    nlinarith
  · rw [heq]
    simp

/-- Witness for C5 at the all-halves metrics record. -/
theorem calculateOverallScore_weighted_witness :
    calculateOverallScore
        { coherence := 0.5, relevance := 0.5, completeness := 0.5, clarity := 0.5,
          engagement := 0.5, structureScore := 0.5, tone := 0.5, length := 0.5 } =
      0.15 * (0.5 : ℚ) + 0.15 * 0.5 + 0.15 * 0.5 + 0.15 * 0.5 +
      0.10 * 0.5 + 0.10 * 0.5 + 0.10 * 0.5 + 0.10 * 0.5 := by
  have h := calculateOverallScore_weighted
    { coherence := 0.5, relevance := 0.5, completeness := 0.5, clarity := 0.5,
      engagement := 0.5, structureScore := 0.5, tone := 0.5, length := 0.5 }
    (by norm_num) (by norm_num) (by norm_num) (by norm_num)
    (by norm_num) (by norm_num) (by norm_num) (by norm_num)
  exact h.1

/-- C6: for any analysis record and chosen model, the strategy applies
exactly the documented adjustments — urgency high raises the temperature
by 0.2 capped at 1.0 and tags "urgent_response"; negative sentiment tags
"empathetic_tone" and appends "empathetic" to the tone list; high
complexity multiplies the token budget by 1.5 capped at 8000 and tags
"detailed_explanation"; otherwise temperature and token budget equal the
chosen model values. -/
theorem generateResponseStrategy_adjustments (a : InputAnalysis) (m : ModelConfig) :
    (a.urgency = "high" →
      (generateResponseStrategy initialResponsePatterns a m).1.temperature = min (m.temperature + 0.2) 1.0 ∧
      "urgent_response" ∈ (generateResponseStrategy initialResponsePatterns a m).1.enhancements) ∧
    (a.urgency ≠ "high" →
      (generateResponseStrategy initialResponsePatterns a m).1.temperature = m.temperature) ∧
    (a.sentiment = "negative" →
      "empathetic_tone" ∈ (generateResponseStrategy initialResponsePatterns a m).1.enhancements ∧
      (generateResponseStrategy initialResponsePatterns a m).1.tone =
        ((lookupResponsePattern initialResponsePatterns a.contentType).map ResponsePattern.tone).getD
          ["professional"] ++ ["empathetic"]) ∧
    (a.sentiment ≠ "negative" →
      (generateResponseStrategy initialResponsePatterns a m).1.tone =
        ((lookupResponsePattern initialResponsePatterns a.contentType).map ResponsePattern.tone).getD
          ["professional"]) ∧
    (a.complexity = "high" →
      (generateResponseStrategy initialResponsePatterns a m).1.maxTokens = min (m.maxTokens * 1.5) 8000 ∧
      "detailed_explanation" ∈ (generateResponseStrategy initialResponsePatterns a m).1.enhancements) ∧
    (a.complexity ≠ "high" →
      (generateResponseStrategy initialResponsePatterns a m).1.maxTokens = m.maxTokens) := by
  by_cases hu : a.urgency = "high" <;>
    by_cases hs : a.sentiment = "negative" <;>
      by_cases hc : a.complexity = "high" <;>
        simp [generateResponseStrategy, hu, hs, hc]

set_option maxRecDepth 100000 in
/-- Witness for C6 at a high-urgency, negative-sentiment,
high-complexity conversation analysis and the llama config. -/
theorem generateResponseStrategy_adjustments_witness :
    (generateResponseStrategy initialResponsePatterns
        { contentType := "conversation", complexity := "high", sentiment := "negative",
          urgency := "high", domain := "general", userIntent := "general" }
        llamaModel).1.temperature = min (llamaModel.temperature + 0.2) 1.0 ∧
    (generateResponseStrategy initialResponsePatterns
        { contentType := "conversation", complexity := "high", sentiment := "negative",
          urgency := "high", domain := "general", userIntent := "general" }
        llamaModel).1.maxTokens = min (llamaModel.maxTokens * 1.5) 8000 ∧
    (generateResponseStrategy initialResponsePatterns
        { contentType := "conversation", complexity := "high", sentiment := "negative",
          urgency := "high", domain := "general", userIntent := "general" }
        llamaModel).1.tone =
      ((lookupResponsePattern initialResponsePatterns "conversation").map ResponsePattern.tone).getD
        ["professional"] ++ ["empathetic"] := by
  have h := generateResponseStrategy_adjustments
    { contentType := "conversation", complexity := "high", sentiment := "negative",
      urgency := "high", domain := "general", userIntent := "general" } llamaModel
  exact ⟨(h.1 rfl).1, (h.2.2.2.2.1 rfl).1, (h.2.2.1 rfl).2⟩

/-- C7: when no sentence matches the review conclusion keywords, the
review renderer ends its output with the canned conclusion selected by
comparing the positive and negative aspect counts — in particular the
"recommend to others" line whenever positives outnumber negatives —
so the response never lacks a closing line. -/
theorem formatEnhancedReviewResponse_fallback (sentences : List String) (st : ContentStructure)
    (hno : ∀ s ∈ sentences, reviewConclusionPred s = false) :
    strEndsWith (formatEnhancedReviewResponse sentences st)
      (if st.positiveAspects.length > st.negativeAspects.length then reviewConclusionPositive
       else if st.negativeAspects.length > st.positiveAspects.length then reviewConclusionNegative
       else reviewConclusionMixed) = true := by
  have hfind : sentences.find? reviewConclusionPred = none := by
    rw [List.find?_eq_none]
    intro s hs
    simp [hno s hs]
  by_cases h1 : st.positiveAspects.length > st.negativeAspects.length
  · simp only [formatEnhancedReviewResponse, hfind, if_pos h1]
    exact strEndsWith_jsTrim_append _ _ (by rfl)
  · by_cases h2 : st.negativeAspects.length > st.positiveAspects.length
    · simp only [formatEnhancedReviewResponse, hfind, if_neg h1, if_pos h2]
      exact strEndsWith_jsTrim_append _ _ (by rfl)
    · simp only [formatEnhancedReviewResponse, hfind, if_neg h1, if_neg h2]
      exact strEndsWith_jsTrim_append _ _ (by rfl)

set_option maxRecDepth 100000 in
/-- Witness for C7: a structure with three positive aspects, one
negative aspect and no conclusion-keyword sentence ends with the
"recommend to others" canned line. -/
theorem formatEnhancedReviewResponse_fallback_witness :
    strEndsWith
      (formatEnhancedReviewResponse
        ["The food was amazing", "The staff was great", "Decor was excellent", "The wait was bad"]
        (analyzeEnhancedContentStructure
          ["The food was amazing", "The staff was great", "Decor was excellent", "The wait was bad"]))
      (if (analyzeEnhancedContentStructure
            ["The food was amazing", "The staff was great", "Decor was excellent", "The wait was bad"]).positiveAspects.length >
          (analyzeEnhancedContentStructure
            ["The food was amazing", "The staff was great", "Decor was excellent", "The wait was bad"]).negativeAspects.length
       then reviewConclusionPositive
       else if (analyzeEnhancedContentStructure
            ["The food was amazing", "The staff was great", "Decor was excellent", "The wait was bad"]).negativeAspects.length >
          (analyzeEnhancedContentStructure
            ["The food was amazing", "The staff was great", "Decor was excellent", "The wait was bad"]).positiveAspects.length
       then reviewConclusionNegative
       else reviewConclusionMixed) = true :=
  formatEnhancedReviewResponse_fallback _ _ (by intro s hs; fin_cases hs <;> rfl)

/-- C8: every non-string or falsy input is returned unchanged by the
cleaning entry point. -/
theorem cleanAIResponse_identity_on_nonstring_or_falsy (v : JSValue)
    (h : isStringJS v = false ∨ jsTruthy v = false) :
    cleanAIResponse v = v := by
  cases v with
  | vStr s =>
    rcases h with h | h
    · simp [isStringJS] at h
    · have hs : s = "" := by
        by_contra hne
        simp [jsTruthy, hne] at h
      subst hs
      rfl
  | vNull => rfl
  | vUndefined => rfl
  | vNum n => simp [cleanAIResponse, jsTruthy, isStringJS]
  | vBool b => simp [cleanAIResponse, jsTruthy, isStringJS]

/-- Witness for C8 at the concrete inputs `null` and `42`. -/
theorem cleanAIResponse_identity_witness :
    cleanAIResponse JSValue.vNull = JSValue.vNull ∧
    cleanAIResponse (JSValue.vNum 42) = JSValue.vNum 42 :=
  ⟨cleanAIResponse_identity_on_nonstring_or_falsy JSValue.vNull (Or.inl rfl),
   cleanAIResponse_identity_on_nonstring_or_falsy (JSValue.vNum 42) (Or.inl rfl)⟩

/-- C9: when the upstream completion fails to parse as JSON, the
voice-analysis post-processing still succeeds, working from the fixed
fallback record (sentiment neutral, confidence one half), and the
location-suggestion post-processing still succeeds with an empty
suggestion list and empty analysis. -/
theorem jsonParse_failure_fallback
    (parseVoice : String → Option PartialVoiceAnalysisData)
    (stringifyVoice : VoiceAnalysisData → String)
    (parseLoc : String → Option LocationPayload)
    (stringifyLoc : LocationPayload → String)
    (voiceContent locContent : Option String) (transcript : String)
    (hv : parseVoice (voiceContent.getD "\x7b\x7d") = none)
    (_hl : parseLoc (locContent.getD "No response generated") = none) :
    (analyzeVoiceInputPost parseVoice stringifyVoice voiceContent transcript).success = true ∧
    (analyzeVoiceInputPost parseVoice stringifyVoice voiceContent transcript).analysis =
      cleanAIResponseStr (stringifyVoice (fallbackVoiceAnalysis transcript)) ∧
    (fallbackVoiceAnalysis transcript).sentiment = "neutral" ∧
    (fallbackVoiceAnalysis transcript).confidence = 0.5 ∧
    (generateLocationSuggestionsPost parseLoc stringifyLoc locContent).success = true ∧
    (generateLocationSuggestionsPost parseLoc stringifyLoc locContent).suggestions = [] ∧
    (generateLocationSuggestionsPost parseLoc stringifyLoc locContent).analysis = none := by
  have hmerge : mergeVoiceAnalysis (defaultVoiceAnalysis transcript)
      (partialOfVoice (fallbackVoiceAnalysis transcript)) = fallbackVoiceAnalysis transcript := rfl
  refine ⟨?_, ?_, rfl, rfl, rfl, rfl, rfl⟩ <;>
    simp [analyzeVoiceInputPost, hv, hmerge]

/-- Witness for C9 with an always-failing parser on concrete inputs. -/
theorem jsonParse_failure_fallback_witness :
    (analyzeVoiceInputPost (fun _ => none) (fun _ => "analysis unavailable") none "hello world").success = true ∧
    (generateLocationSuggestionsPost (fun _ => none) (fun _ => "no output") none).suggestions = [] :=
  ⟨(jsonParse_failure_fallback (fun _ => none) (fun _ => "analysis unavailable")
      (fun _ => none) (fun _ => "no output") none none "hello world" rfl rfl).1,
   (jsonParse_failure_fallback (fun _ => none) (fun _ => "analysis unavailable")
      (fun _ => none) (fun _ => "no output") none none "hello world" rfl rfl).2.2.2.2.2.1⟩

/-- C10: for every content-type tag outside the four catalog keys, the
completeness, structure, tone and length metrics are computed against
the conversation pattern, so the quality analyzer treats any unknown tag
(including "general") as conversation. -/
theorem qaMetrics_default_to_conversation (ct : String)
    (h1 : ct ≠ "conversation") (h2 : ct ≠ "analysis")
    (h3 : ct ≠ "customer_service") (h4 : ct ≠ "review") (response : String) :
    analyzeCompleteness response ct = analyzeCompleteness response "conversation" ∧
    analyzeStructure response ct = analyzeStructure response "conversation" ∧
    analyzeTone response ct = analyzeTone response "conversation" ∧
    analyzeLength response ct = analyzeLength response "conversation" := by
  have hp : qaPatternFor ct = qaPatternFor "conversation" := by
    simp [qaPatternFor, qaLookupPattern, h1, h2, h3, h4]
  exact ⟨by simp only [analyzeCompleteness, hp], by simp only [analyzeStructure, hp],
         by simp only [analyzeTone, hp], by simp only [analyzeLength, hp]⟩

/-- Witness for C10 at the documented "general" tag. -/
theorem qaMetrics_default_to_conversation_witness :
    analyzeCompleteness "hi" "general" = analyzeCompleteness "hi" "conversation" ∧
    analyzeStructure "hi" "general" = analyzeStructure "hi" "conversation" ∧
    analyzeTone "hi" "general" = analyzeTone "hi" "conversation" ∧
    analyzeLength "hi" "general" = analyzeLength "hi" "conversation" :=
  qaMetrics_default_to_conversation "general" (by decide) (by decide) (by decide) (by decide) "hi"
